import Mathlib

/-!
Shallow embedding of the laas-api core (custodial Bitcoin/Lightning funds
management service) and proofs about its flow operations.

Conventions of the embedding:
- Rust `i64` millisatoshi / satoshi quantities are modelled as `Int`
  (no claim under scrutiny involves 64-bit overflow);
- `Uuid::new_v4()` fresh identifiers and `Utc::now()` timestamps are
  nondeterministic external inputs, passed in as explicit `fresh_id` / `now`
  parameters (modelled as `Nat`);
- `&mut` methods become state-passing functions returning the updated values;
- Rust `panic!` (programmer-bug assertions) is modelled by returning `none`
  from an `Option`-valued function;
- external node calls (`probe_fee`, `pay_invoice`, `create_invoice`,
  `estimate_fee`) are effects whose outcome is passed in as a parameter;
- BOLT-11 invoice parsing is external library code; a raw invoice is its
  string, and the outcome of `RawInvoice::parse` is passed as a parameter
  where the source calls it.
-/

namespace Laas

/-- Millisatoshi amounts (`btc::MilliSats`, a signed 64-bit integer). -/
abbrev MilliSats := Int

/-- Satoshi amounts (`btc::Sats`, a signed 64-bit integer). -/
abbrev Sats := Int

/-- Mirrors `btc::Sats::msats`: satoshis converted to millisatoshis. -/
def Sats.msats (s : Sats) : MilliSats := s * 1000

/-- Mirrors `btc::MilliSats::sats_floor`. -/
def MilliSats.sats_floor (m : MilliSats) : Sats := m / 1000

/-- Mirrors `balance::InsufficientBalance`. -/
inductive InsufficientBalance where
  | mk
  deriving DecidableEq, Repr

/-- Mirrors `balance::Balance`: the in-memory user balance, carrying the
original loaded amount for the optimistic-concurrency compare-and-set. -/
structure Balance where
  user_id : Nat
  original_amount : MilliSats
  amount : MilliSats
  deriving DecidableEq, Repr

/-- Mirrors `balance::ReservationStatus`. -/
inductive ReservationStatus where
  | pending
  | debited
  | refunded
  deriving DecidableEq, Repr

/-- Mirrors `balance::Reservation`. -/
structure Reservation where
  id : Nat
  user_id : Nat
  amount : MilliSats
  status : ReservationStatus
  created : Nat
  deriving DecidableEq, Repr

/-- Mirrors `Balance::new`. -/
def Balance.new (user_id : Nat) (amount : MilliSats) : Balance :=
  { user_id := user_id, original_amount := amount, amount := amount }

/-- Mirrors `Balance::changed`. -/
def Balance.changed (b : Balance) : Bool := b.original_amount ≠ b.amount

/-- Mirrors `Balance::credit`. -/
def Balance.credit (b : Balance) (amount : MilliSats) : Balance :=
  { b with amount := b.amount + amount }

/-- Mirrors `Balance::reserve`: fails with `InsufficientBalance` when
`amount > self.amount`, otherwise decrements the balance and creates a
`Pending` reservation. The fresh UUID and `Utc::now()` are parameters. -/
def Balance.reserve (b : Balance) (amount : MilliSats) (fresh_id : Nat) (now : Nat) :
    Balance × Except InsufficientBalance Reservation :=
  if amount > b.amount then
    (b, .error .mk)
  else
    ({ b with amount := b.amount - amount },
     .ok { id := fresh_id, user_id := b.user_id, amount := amount,
           status := .pending, created := now })

/-- Mirrors `Reservation::debit`: panics (`none`) unless the reservation is
`Pending`; otherwise marks it `Debited`. -/
def Reservation.debit (r : Reservation) : Option Reservation :=
  if r.status ≠ .pending then
    none
  else
    some { r with status := .debited }

/-- Mirrors `Reservation::refund`: panics (`none`) unless the reservation is
`Pending`; otherwise marks it `Refunded` and credits the funds back to the
balance. -/
def Reservation.refund (r : Reservation) (balance : Balance) :
    Option (Reservation × Balance) :=
  if r.status ≠ .pending then
    none
  else
    some ({ r with status := .refunded }, balance.credit r.amount)

/-- Sum of the amounts of the reservations with the given status. -/
def sumWithStatus (s : ReservationStatus) (rs : List Reservation) : MilliSats :=
  ((rs.filter (fun r => r.status = s)).map (fun r => r.amount)).sum

/-- The conserved quantity of spec invariant 2:
balance amount + SUM(Pending reservation amounts) + SUM(Debited reservation amounts). -/
def flowTotal (b : Balance) (rs : List Reservation) : MilliSats :=
  b.amount + sumWithStatus .pending rs + sumWithStatus .debited rs

/-- Mirrors `cash_limits::Error`. -/
inductive CashLimits.Error where
  | amountTooLow
  | amountTooHigh
  | dailyLimitExceeded
  deriving DecidableEq, Repr

/-- Mirrors `cash_limits::CashLimits`. -/
structure CashLimits where
  min : MilliSats
  max : MilliSats
  daily : MilliSats
  deriving DecidableEq, Repr

/-- Mirrors `cash_limits::Amounts`. -/
structure Amounts where
  amount : MilliSats
  daily_total : MilliSats
  deriving DecidableEq, Repr

/-- Mirrors `CashLimits::check`. -/
def CashLimits.check (l : CashLimits) (a : Amounts) : Except CashLimits.Error Unit :=
  if a.amount < l.min then .error .amountTooLow
  else if a.amount > l.max then .error .amountTooHigh
  else if a.daily_total + a.amount > l.daily then .error .dailyLimitExceeded
  else .ok ()

/-- Mirrors `auth::SpendGrant` (token and user UUIDs as `Nat`). -/
structure SpendGrant where
  token_id : Nat
  user_id : Nat
  deriving DecidableEq, Repr

/-- Mirrors `auth::ReceiveGrant`. -/
structure ReceiveGrant where
  token_id : Nat
  user_id : Nat
  deriving DecidableEq, Repr

/-- Mirrors `ln::RawInvoice`: an unparsed BOLT-11 payment request string. -/
abbrev RawInvoice := String

/-- Model of the BOLT-11 parsed invoice (`ln::ParsedInvoice`, external library
type): the only observation the core makes of it is `amount_milli_satoshis`. -/
structure ParsedInvoice where
  amount_milli_satoshis : Option Nat
  deriving DecidableEq, Repr

/-- Mirrors `ln::PaymentError`. The `InvalidPaymentDetails` payload (an
`lnrpc::Payment` protobuf) is never inspected by the payment flow, so it is
dropped here. -/
inductive PaymentError where
  | unknown
  | invoiceExpired
  | invoiceAlreadyPaid
  | timedOut
  | noRouteFound
  | invalidPaymentDetails
  | insufficientLiquidity
  deriving DecidableEq, Repr

/-- The canonical failure reason strings, as assigned by `Payment::fail`. -/
def PaymentError.reason : PaymentError → String
  | .unknown => "UNKNOWN"
  | .invoiceExpired => "INVOICE_EXPIRED"
  | .invoiceAlreadyPaid => "INVOICE_ALREADY_PAID"
  | .timedOut => "TIMED_OUT"
  | .noRouteFound => "NO_ROUTE_FOUND"
  | .invalidPaymentDetails => "INVALID_PAYMENT_DETAILS"
  | .insufficientLiquidity => "INSUFFICIENT_LIQUIDITY"

/-- Mirrors `payment::Status`. -/
inductive PaymentStatus where
  | new
  | ready
  | failed (reason : String) (timestamp : Nat)
  | succeeded (timestamp : Nat)
  deriving DecidableEq, Repr

/-- Mirrors `payment::Error`. -/
inductive Payment.Error where
  | limitsViolated (e : CashLimits.Error)
  | invalidInvoice (e : String)
  | amountSpecifiedTwice
  | amountNotSpecified
  | paymentError (e : PaymentError)
  | concurrencyConflict
  | insufficientBalance
  deriving DecidableEq, Repr

/-- Mirrors `payment::Payment`. -/
structure Payment where
  id : Nat
  token_id : Nat
  user_id : Nat
  amount : MilliSats
  invoice : RawInvoice
  fee : Option MilliSats
  reservation_id : Option Nat
  created : Nat
  status : PaymentStatus
  deriving DecidableEq, Repr

/-- Mirrors `Payment::fail`: records the canonical failure reason string. -/
def Payment.fail (p : Payment) (e : PaymentError) (now : Nat) : Payment :=
  { p with status := .failed e.reason now }

/-- Mirrors `Payment::create`. `parse_result` is the outcome of
`invoice.parse()` (external BOLT-11 parsing of the invoice string). -/
def Payment.create (grant : SpendGrant) (invoice : RawInvoice)
    (parse_result : Except String ParsedInvoice) (amount : Option MilliSats)
    (limits : CashLimits) (daily_total : MilliSats) (fresh_id now : Nat) :
    Except Payment.Error Payment :=
  match parse_result with
  | .error e => .error (.invalidInvoice e)
  | .ok parsed =>
    match
      (match parsed.amount_milli_satoshis, amount with
       | some _, some _ => Except.error Payment.Error.amountSpecifiedTwice
       | some a, none => Except.ok (Int.ofNat a : MilliSats)
       | none, some a => Except.ok a
       | none, none => Except.error Payment.Error.amountNotSpecified)
    with
    | .error e => .error e
    | .ok amount =>
      match limits.check { amount := amount, daily_total := daily_total } with
      | .error e => .error (.limitsViolated e)
      | .ok _ =>
        .ok { id := fresh_id, token_id := grant.token_id, user_id := grant.user_id,
              amount := amount, invoice := invoice, reservation_id := none,
              fee := none, created := now, status := .new }

/-- Mirrors `Payment::prepare`: panics (`none`) unless the payment is New and
the balance belongs to the payment's user. `probe_result` is the outcome of
`node.probe_fee` (external). On a probed fee the flow reserves
`amount + fee`; on a probe error the payment is failed and the error
surfaced. -/
def Payment.prepare (p : Payment) (b : Balance)
    (probe_result : Except PaymentError MilliSats) (fresh_rid now : Nat) :
    Option (Payment × Balance × Except Payment.Error Reservation) :=
  if p.status ≠ .new then none
  else if p.user_id ≠ b.user_id then none
  else
    match probe_result with
    | .ok fee =>
      match b.reserve (p.amount + fee) fresh_rid now with
      | (b', .ok reservation) =>
        some ({ p with
                fee := some fee
                reservation_id := some reservation.id
                status := .ready },
              b', .ok reservation)
      | (b', .error _) => some (p, b', .error .insufficientBalance)
    | .error e => some (p.fail e now, b, .error (.paymentError e))

/-- Mirrors `Payment::send`: panics (`none`) unless the user ids match, the
payment is Ready, the reservation is Pending and matches the payment, the fee
is set, and the invoice parses. `parse_result` is the outcome of
`invoice.parse()` and `pay_result` the outcome of `node.pay_invoice`
(external). On success the reservation is debited; on `Unknown` nothing
changes and the error is surfaced; on any other error the reservation is
refunded and the payment failed. -/
def Payment.send (p : Payment) (b : Balance) (r : Reservation)
    (parse_result : Except String ParsedInvoice)
    (pay_result : Except PaymentError Unit) (now : Nat) :
    Option (Payment × Balance × Reservation × Except Payment.Error Unit) :=
  if p.user_id ≠ b.user_id then none
  else if p.status ≠ .ready then none
  else if r.status ≠ .pending then none
  else if p.reservation_id ≠ some r.id then none
  else
    match p.fee with
    | none => none
    | some _fee =>
      match parse_result with
      | .error _ => none
      | .ok _parsed =>
        -- The amount passed to `node.pay_invoice` (`None` when the parsed
        -- invoice carries an amount, else `Some(self.amount)`) only
        -- parameterises the external call, whose outcome is `pay_result`.
        match pay_result with
        | .ok _ =>
          match r.debit with
          | none => none
          | some r' => some ({ p with status := .succeeded now }, b, r', .ok ())
        | .error .unknown => some (p, b, r, .error (.paymentError .unknown))
        | .error e =>
          match r.refund b with
          | none => none
          | some (r', b') => some (p.fail e now, b', r', .error (.paymentError e))

/-- Mirrors `btc::Tx`. -/
structure Tx where
  id : Nat
  block_height : Option Nat
  deriving DecidableEq, Repr

/-- Mirrors `Tx::is_confirmed`. -/
def Tx.is_confirmed (t : Tx) : Bool := t.block_height.isSome

/-- Mirrors `btc::TxOut` (the bitcoin address is modelled as a string). -/
structure TxOut where
  tx : Tx
  address : String
  v_out : Int
  amount : Sats
  deriving DecidableEq, Repr

/-- Mirrors `withdrawal::Error`. -/
inductive Withdrawal.Error where
  | insufficientBalance
  | concurrencyConflict
  | amountNotPositive
  deriving DecidableEq, Repr

/-- Mirrors `withdrawal::Withdrawal`. -/
structure Withdrawal where
  id : Nat
  user_id : Nat
  token_id : Nat
  reservation_id : Nat
  address : String
  fee : Sats
  amount : Sats
  tx_out : Option TxOut
  created : Nat
  confirmed : Option Nat
  deriving DecidableEq, Repr

/-- Mirrors `Withdrawal::start`: panics (`none`) on a grant/balance user-id
mismatch, rejects `amount ≤ 0`, then reserves `amount.msats() + fee.msats()`.
`fee` is the outcome of `node.estimate_fee` (external). -/
def Withdrawal.start (grant : SpendGrant) (b : Balance) (address : String)
    (amount : Sats) (fee : Sats) (fresh_wid fresh_rid now : Nat) :
    Option (Balance × Except Withdrawal.Error (Withdrawal × Reservation)) :=
  if grant.user_id ≠ b.user_id then none
  else if amount ≤ 0 then some (b, .error .amountNotPositive)
  else
    match b.reserve (Sats.msats amount + Sats.msats fee) fresh_rid now with
    | (b', .error _) => some (b', .error .insufficientBalance)
    | (b', .ok reservation) =>
      some (b', .ok
        ({ id := fresh_wid, user_id := grant.user_id, token_id := grant.token_id,
           reservation_id := reservation.id, address := address, fee := fee,
           amount := amount, tx_out := none, created := now, confirmed := none },
         reservation))

/-- One payment-flow state: the payment, the user balance, and the payment's
reservation once one exists. -/
inductive PaymentReach : Payment → Balance → Option Reservation → Prop where
  /-- A freshly created payment (`Payment::create` succeeded); no reservation
  exists yet. The balance is arbitrary: create does not touch it. -/
  | created (grant : SpendGrant) (invoice : RawInvoice)
      (parse_result : Except String ParsedInvoice) (amount : Option MilliSats)
      (limits : CashLimits) (daily_total : MilliSats) (fresh_id now : Nat)
      (p : Payment) (b : Balance) :
      Payment.create grant invoice parse_result amount limits daily_total
        fresh_id now = .ok p →
      PaymentReach p b none
  /-- `Payment::prepare` returned a reservation. -/
  | prepared (p : Payment) (b : Balance) (probe_result : Except PaymentError MilliSats)
      (fresh_rid now : Nat) (p' : Payment) (b' : Balance) (r : Reservation) :
      PaymentReach p b none →
      Payment.prepare p b probe_result fresh_rid now = some (p', b', .ok r) →
      PaymentReach p' b' (some r)
  /-- `Payment::prepare` surfaced an error; still no reservation. -/
  | prepare_failed (p : Payment) (b : Balance)
      (probe_result : Except PaymentError MilliSats) (fresh_rid now : Nat)
      (p' : Payment) (b' : Balance) (e : Payment.Error) :
      PaymentReach p b none →
      Payment.prepare p b probe_result fresh_rid now = some (p', b', .error e) →
      PaymentReach p' b' none
  /-- `Payment::send` ran (with any node outcome) without panicking. -/
  | sent (p : Payment) (b : Balance) (r : Reservation)
      (parse_result : Except String ParsedInvoice)
      (pay_result : Except PaymentError Unit) (now : Nat)
      (p' : Payment) (b' : Balance) (r' : Reservation)
      (out : Except Payment.Error Unit) :
      PaymentReach p b (some r) →
      Payment.send p b r parse_result pay_result now = some (p', b', r', out) →
      PaymentReach p' b' (some r')

/-- Mirrors `deposit::Address` (a user's on-chain deposit address). -/
structure DepositAddress where
  user_id : Nat
  token_id : Nat
  address : String
  created : Nat
  deriving DecidableEq, Repr

/-- Mirrors `deposit::Deposit`. -/
structure Deposit where
  id : Nat
  user_id : Nat
  tx_out : TxOut
  created : Nat
  confirmed : Option Nat
  deriving DecidableEq, Repr

/-- Mirrors `Address::start_deposit`. -/
def DepositAddress.start_deposit (a : DepositAddress) (tx_out : TxOut)
    (fresh_id now : Nat) : Deposit :=
  { id := fresh_id, user_id := a.user_id, tx_out := tx_out, created := now,
    confirmed := none }

/-- Mirrors `Deposit::is_confirmed`. -/
def Deposit.is_confirmed (d : Deposit) : Bool := d.confirmed.isSome

/-- Mirrors `Deposit::confirm`: panics (`none`) if the deposit is already
confirmed, if the tx ids differ, or on a user-id mismatch; otherwise stores
the confirming output, sets `confirmed = now` and credits the balance by
`tx_out.amount.msats()`. -/
def Deposit.confirm (d : Deposit) (tx_out : TxOut) (b : Balance) (now : Nat) :
    Option (Deposit × Balance) :=
  if d.is_confirmed then none
  else if tx_out.tx.id ≠ d.tx_out.tx.id then none
  else if d.user_id ≠ b.user_id then none
  else some ({ d with tx_out := tx_out, confirmed := some now },
             b.credit (Sats.msats tx_out.amount))

/-- Mirrors `deposit::get_or_start`: the deposit already recorded for
`(tx_id, v_out)` if any, else a fresh one started from the known deposit
address the output pays, else none (output unrelated to a deposit). -/
def depositGetOrStart (existing : Option Deposit) (addr : Option DepositAddress)
    (tx_out : TxOut) (fresh_id now : Nat) : Option Deposit :=
  match existing with
  | some deposit => some deposit
  | none => addr.map (fun a => a.start_deposit tx_out fresh_id now)

/-- Mirrors the per-output body of the deposit `Listener::process` (the
database fetch/upsert and retry wrapper around it are I/O): confirm the
deposit when the output is confirmed and the deposit is not, otherwise leave
everything unchanged. Returns the resulting deposit (if the output concerns
one) and balance; `none` is a panic escalated from `Deposit::confirm`. -/
def Listener.process (existing : Option Deposit) (addr : Option DepositAddress)
    (tx_out : TxOut) (b : Balance) (fresh_id now : Nat) :
    Option (Option Deposit × Balance) :=
  match depositGetOrStart existing addr tx_out fresh_id now with
  | some deposit =>
    if tx_out.tx.is_confirmed && !deposit.is_confirmed then
      (deposit.confirm tx_out b now).map (fun db => (some db.1, db.2))
    else
      some (some deposit, b)
  | none => some (none, b)

/-- Mirrors `invoice::Settlement`. -/
structure Settlement where
  amount : MilliSats
  timestamp : Nat
  settle_index : Nat
  deriving DecidableEq, Repr

/-- Mirrors `invoice::Invoice`. Times are abstract ticks; `expiration` is
`created + expiry`. -/
structure Invoice where
  id : Nat
  user_id : Nat
  token_id : Nat
  amount : MilliSats
  memo : Option String
  raw : RawInvoice
  created : Nat
  settlement : Option Settlement
  expiration : Int
  deriving DecidableEq, Repr

/-- Mirrors `invoice::MAX_MEMO_BYTES`. -/
def MAX_MEMO_BYTES : Nat := 639

/-- Mirrors `invoice::MAX_EXPIRY_SECONDS`. -/
def MAX_EXPIRY_SECONDS : Int := 31536000

/-- Mirrors `invoice::Error`. -/
inductive Invoice.Error where
  | limitsViolated (e : CashLimits.Error)
  | amountNotPositive
  | invalidExpiry (msg : String)
  | invalidMemo (msg : String)
  deriving DecidableEq, Repr

/-- The memo-length guard of `Invoice::create`: `memo.as_bytes().len()`
exceeds `MAX_MEMO_BYTES` (checked only when a memo is present). -/
def memoExceedsMax (memo : Option String) : Bool :=
  match memo with
  | some m => decide (m.utf8ByteSize > MAX_MEMO_BYTES)
  | none => false

/-- Mirrors `Invoice::create`: validates amount, memo byte length, expiry and
cash limits, then asks the node to mint the BOLT-11 invoice. `node_invoice`
is the outcome of `node.create_invoice` (external, only reached when every
validation passed). -/
def Invoice.create (grant : ReceiveGrant) (node_invoice : RawInvoice)
    (amount : MilliSats) (memo : Option String) (expiry : Int)
    (limits : CashLimits) (daily_total : MilliSats) (fresh_id now : Nat) :
    Except Invoice.Error Invoice :=
  if amount ≤ 0 then .error .amountNotPositive
  else if memoExceedsMax memo then
    .error (.invalidMemo "memo can be up to 639 bytes long")
  else if expiry ≤ 0 then .error (.invalidExpiry "expiry must be positive")
  else if expiry > MAX_EXPIRY_SECONDS then
    .error (.invalidExpiry "expiry can't be more than 31536000 seconds")
  else
    match limits.check { amount := amount, daily_total := daily_total } with
    | .error e => .error (.limitsViolated e)
    | .ok _ =>
      .ok { id := fresh_id, user_id := grant.user_id, token_id := grant.token_id,
            amount := amount, memo := memo, raw := node_invoice, created := now,
            settlement := none, expiration := (now : Int) + expiry }

/-- Mirrors `Invoice::is_settled`. -/
def Invoice.is_settled (inv : Invoice) : Bool := inv.settlement.isSome

/-- Mirrors `ln::SettledInvoice`: the node's settled-invoice update. -/
structure SettledInvoice where
  amount : MilliSats
  settle_index : Nat
  raw : RawInvoice
  deriving DecidableEq, Repr

/-- Mirrors `Invoice::settle`: panics (`none`) if already settled, on a
user-id mismatch, or if the update's payment request differs from the
invoice's; otherwise records the settlement with the node-reported amount and
credits the balance by that amount. -/
def Invoice.settle (inv : Invoice) (b : Balance) (settled_invoice : SettledInvoice)
    (now : Nat) : Option (Invoice × Balance) :=
  if inv.is_settled then none
  else if inv.user_id ≠ b.user_id then none
  else if settled_invoice.raw ≠ inv.raw then none
  else
    some ({ inv with settlement := some { amount := settled_invoice.amount,
                                          timestamp := now,
                                          settle_index := settled_invoice.settle_index } },
          b.credit settled_invoice.amount)

/-- Mirrors `invoice::complete` (its transactional body): a no-op when the
invoice is already settled, otherwise settle it against the loaded balance. -/
def Invoice.complete (inv : Invoice) (b : Balance) (settled_invoice : SettledInvoice)
    (now : Nat) : Option (Invoice × Balance) :=
  if inv.is_settled then some (inv, b)
  else inv.settle b settled_invoice now

/-- Mirrors `concurrency::MAX_RETRIES`. -/
def MAX_RETRIES : Nat := 10

/-- Model of a `std::error::Error` value as its source chain: each component
records whether it `is::<ConflictError>()`; `base` is an error whose
`source()` is `None`, `wrap` one whose `source()` is the wrapped error. -/
inductive SrcError where
  | base (is_conflict_error : Bool)
  | wrap (is_conflict_error : Bool) (source : SrcError)
  deriving DecidableEq, Repr

/-- Whether the error `is::<ConflictError>()`. -/
def SrcError.is_conflict_error : SrcError → Bool
  | .base m => m
  | .wrap m _ => m

/-- The error's `source()`. -/
def SrcError.source : SrcError → Option SrcError
  | .base _ => none
  | .wrap _ e => some e

/-- The recursion of `concurrency::is_conflict` along a single chain. -/
def isConflictChain : SrcError → Bool
  | .base m => m
  | .wrap m e => m || isConflictChain e

/-- Mirrors `concurrency::is_conflict`: whether the error chain contains a
`ConflictError` (`e.map(|e| e.is::<ConflictError>() || is_conflict(e.source())).unwrap_or(false)`). -/
def is_conflict : Option SrcError → Bool
  | none => false
  | some e => isConflictChain e

/-- Whether an invocation outcome is an error whose chain contains
`ConflictError` (the guard of the retry arm of `retry_loop`). -/
def isConflictResult {T : Type} : Except SrcError T → Bool
  | .ok _ => false
  | .error e => is_conflict (some e)

/-- The body of `concurrency::retry_loop`, defunctionalised: `cb k` is the
outcome of the k-th invocation of the callback (invocations counted from 1),
`i` the current attempt number and `left` the remaining iterations of the
`for i in 1..MAX_RETRIES` loop. Returns the propagated result, the index of
the last invocation made, and the list of sleep durations (in seconds)
performed, in order. -/
def retryAux {T : Type} (cb : Nat → Except SrcError T) :
    Nat → Nat → Except SrcError T × Nat × List Nat
  | i, 0 => (cb i, i, [])
  | i, left + 1 =>
    match cb i with
    | .ok result => (.ok result, i, [])
    | .error e =>
      if is_conflict (some e) then
        let rest := retryAux cb (i + 1) left
        (rest.1, rest.2.1, i :: rest.2.2)
      else
        (.error e, i, [])

/-- Mirrors `concurrency::retry_loop`: 9 in-loop attempts with conflict
backoff, then one final attempt whose outcome is propagated as-is. -/
def retry_loop {T : Type} (cb : Nat → Except SrcError T) :
    Except SrcError T × Nat × List Nat :=
  retryAux cb 1 (MAX_RETRIES - 1)

/-- A concrete callback for evaluation: conflict errors on the first two
invocations, then success. -/
def retryCbExample : Nat → Except SrcError Nat :=
  fun j => if j < 3 then .error (.base true) else .ok 7

theorem sumWithStatus_cons (s : ReservationStatus) (r : Reservation) (rs : List Reservation) :
    sumWithStatus s (r :: rs) =
      (if r.status = s then r.amount else 0) + sumWithStatus s rs := by
  simp only [sumWithStatus, List.filter_cons]
  split
  · next h =>
    simp only [List.map_cons, List.sum_cons]
    rw [if_pos (by simpa using h)]
  · next h =>
    rw [if_neg (by simpa using h)]
    simp

theorem sumWithStatus_append (s : ReservationStatus) (rs₁ rs₂ : List Reservation) :
    sumWithStatus s (rs₁ ++ rs₂) = sumWithStatus s rs₁ + sumWithStatus s rs₂ := by
  simp [sumWithStatus, List.filter_append]

/-- C1 — Conservation of funds across the reservation protocol: a successful
`Balance::reserve` (which appends a fresh Pending reservation), a successful
`Reservation::debit`, and a successful `Reservation::refund` each leave
`balance.amount + SUM(Pending amounts) + SUM(Debited amounts)` unchanged. -/
theorem reservation_protocol_conserves_flowTotal
    (b : Balance) (rs rs₁ rs₂ : List Reservation) (r : Reservation)
    (m : MilliSats) (fresh_id now : Nat) :
    (∀ b' r', Balance.reserve b m fresh_id now = (b', .ok r') →
      flowTotal b' (r' :: rs) = flowTotal b rs) ∧
    (∀ r', Reservation.debit r = some r' →
      flowTotal b (rs₁ ++ r' :: rs₂) = flowTotal b (rs₁ ++ r :: rs₂)) ∧
    (∀ r' b', Reservation.refund r b = some (r', b') →
      flowTotal b' (rs₁ ++ r' :: rs₂) = flowTotal b (rs₁ ++ r :: rs₂)) := by
  refine ⟨?_, ?_, ?_⟩
  · intro b' r' h
    unfold Balance.reserve at h
    split at h
    · exact absurd (congrArg Prod.snd h) (by simp)
    · obtain ⟨hb, hr⟩ := Prod.mk.inj h
      have hr2 := Except.ok.inj hr
      subst hb hr2
      simp [flowTotal, sumWithStatus_cons] <;> ring
  · intro r' h
    unfold Reservation.debit at h
    split at h
    · exact absurd h (by simp)
    · next hst =>
      have hr2 := Option.some.inj h
      subst hr2
      have hp : r.status = .pending := by
        by_contra hc; exact hst (by simpa using hc)
      simp [flowTotal, sumWithStatus_append, sumWithStatus_cons, hp] <;> ring
  · intro r' b' h
    unfold Reservation.refund at h
    split at h
    · exact absurd h (by simp)
    · next hst =>
      obtain ⟨hr, hb⟩ := Prod.mk.inj (Option.some.inj h)
      have hp : r.status = .pending := by
        by_contra hc; exact hst (by simpa using hc)
      subst hr hb
      simp [flowTotal, Balance.credit, sumWithStatus_append, sumWithStatus_cons, hp] <;> ring

theorem reservation_protocol_conserves_flowTotal_witness :
    flowTotal ⟨0, 10, 6⟩ [⟨1, 0, 4, .pending, 0⟩] = flowTotal (Balance.new 0 10) [] ∧
    flowTotal (Balance.new 0 6) ([] ++ ⟨1, 0, 4, .debited, 0⟩ :: []) =
      flowTotal (Balance.new 0 6) ([] ++ ⟨1, 0, 4, .pending, 0⟩ :: []) ∧
    flowTotal ⟨0, 6, 10⟩ ([] ++ ⟨1, 0, 4, .refunded, 0⟩ :: []) =
      flowTotal (Balance.new 0 6) ([] ++ ⟨1, 0, 4, .pending, 0⟩ :: []) :=
  ⟨(reservation_protocol_conserves_flowTotal (Balance.new 0 10) [] [] []
      ⟨1, 0, 4, .pending, 0⟩ 4 1 0).1 ⟨0, 10, 6⟩ ⟨1, 0, 4, .pending, 0⟩ rfl,
   (reservation_protocol_conserves_flowTotal (Balance.new 0 6) [] [] []
      ⟨1, 0, 4, .pending, 0⟩ 4 1 0).2.1 ⟨1, 0, 4, .debited, 0⟩ rfl,
   (reservation_protocol_conserves_flowTotal (Balance.new 0 6) [] [] []
      ⟨1, 0, 4, .pending, 0⟩ 4 1 0).2.2 ⟨1, 0, 4, .refunded, 0⟩ ⟨0, 6, 10⟩ rfl⟩

/-- C2 — `Balance::reserve` fails with `InsufficientBalance` exactly when
`m > b.amount`, leaving the balance unchanged on failure; on success the new
amount is the old amount minus `m` and the returned reservation is Pending
with amount `m` and the balance's user id; a successful reserve therefore
leaves a nonnegative amount nonnegative. -/
theorem reserve_spec (b : Balance) (m : MilliSats) (fresh_id now : Nat) :
    (Balance.reserve b m fresh_id now = (b, .error .mk) ↔ m > b.amount) ∧
    (∀ b' r, Balance.reserve b m fresh_id now = (b', .ok r) →
      b'.amount = b.amount - m ∧ b'.user_id = b.user_id ∧
      b'.original_amount = b.original_amount ∧
      r.status = .pending ∧ r.amount = m ∧ r.user_id = b.user_id) ∧
    (0 ≤ b.amount → 0 ≤ m →
      ∀ b' r, Balance.reserve b m fresh_id now = (b', .ok r) → 0 ≤ b'.amount) := by
  have hok : ∀ b' r, Balance.reserve b m fresh_id now = (b', .ok r) →
      b'.amount = b.amount - m ∧ b'.user_id = b.user_id ∧
      b'.original_amount = b.original_amount ∧
      r.status = .pending ∧ r.amount = m ∧ r.user_id = b.user_id ∧ m ≤ b.amount := by
    intro b' r h
    unfold Balance.reserve at h
    split at h
    · exact absurd (congrArg Prod.snd h) (by simp)
    · next hle =>
      obtain ⟨hb, hr⟩ := Prod.mk.injEq .. ▸ h
      cases Except.ok.injEq .. ▸ hr
      subst hb
      exact ⟨rfl, rfl, rfl, rfl, rfl, rfl, not_lt.mp hle⟩
  refine ⟨⟨?_, ?_⟩, fun b' r h => ⟨(hok b' r h).1, (hok b' r h).2.1, (hok b' r h).2.2.1,
      (hok b' r h).2.2.2.1, (hok b' r h).2.2.2.2.1, (hok b' r h).2.2.2.2.2.1⟩,
      ?_⟩
  · intro h
    by_contra hc
    have : Balance.reserve b m fresh_id now =
        ({ b with amount := b.amount - m },
         .ok { id := fresh_id, user_id := b.user_id, amount := m,
               status := .pending, created := now }) := by
      unfold Balance.reserve
      rw [if_neg hc]
    rw [this] at h
    exact absurd (congrArg Prod.snd h) (by simp)
  · intro h
    unfold Balance.reserve
    rw [if_pos h]
  · intro _ hm b' r h
    have hamt := (hok b' r h).1
    have hle := (hok b' r h).2.2.2.2.2.2
    rw [hamt]
    linarith

theorem reserve_spec_witness :
    (Balance.reserve (Balance.new 0 3) 7 1 0 = (Balance.new 0 3, .error .mk) ↔
      (7 : Int) > (Balance.new 0 3).amount) ∧
    ((0 : Int) ≤ (Balance.new 0 3).amount → (0 : Int) ≤ 2 →
      ∀ b' r, Balance.reserve (Balance.new 0 3) 2 1 0 = (b', .ok r) → 0 ≤ b'.amount) :=
  ⟨(reserve_spec (Balance.new 0 3) 7 1 0).1,
   (reserve_spec (Balance.new 0 3) 2 1 0).2.2⟩

theorem Balance.reserve_eq_ok (b : Balance) (m : MilliSats) (fid now : Nat)
    (b' : Balance) (r : Reservation)
    (h : Balance.reserve b m fid now = (b', .ok r)) :
    m ≤ b.amount ∧ b' = { b with amount := b.amount - m } ∧
    r = { id := fid, user_id := b.user_id, amount := m, status := .pending,
          created := now } := by
  unfold Balance.reserve at h
  split at h
  · exact absurd (congrArg Prod.snd h) (by simp)
  · next hle =>
    obtain ⟨hb, hr⟩ := Prod.mk.inj h
    exact ⟨not_lt.mp hle, hb.symm, (Except.ok.inj hr).symm⟩

theorem Balance.reserve_eq_error (b : Balance) (m : MilliSats) (fid now : Nat)
    (b' : Balance) (e : InsufficientBalance)
    (h : Balance.reserve b m fid now = (b', .error e)) :
    b' = b ∧ b.amount < m := by
  unfold Balance.reserve at h
  split at h
  · exact ⟨(Prod.mk.inj h).1.symm, by assumption⟩
  · exact absurd (congrArg Prod.snd h) (by simp)

theorem Balance.reserve_of_le (b : Balance) (m : MilliSats) (fid now : Nat)
    (hm : m ≤ b.amount) :
    Balance.reserve b m fid now =
      ({ b with amount := b.amount - m },
       .ok { id := fid, user_id := b.user_id, amount := m, status := .pending,
             created := now }) := by
  unfold Balance.reserve
  rw [if_neg (not_lt.mpr hm)]

theorem Reservation.debit_eq_some (r r' : Reservation)
    (h : Reservation.debit r = some r') :
    r.status = .pending ∧ r' = { r with status := .debited } := by
  unfold Reservation.debit at h
  split at h
  · exact absurd h (by simp)
  · next hst =>
    exact ⟨not_not.mp (by simpa using hst), (Option.some.inj h).symm⟩

theorem Reservation.refund_eq_some (r : Reservation) (b : Balance)
    (r' : Reservation) (b' : Balance)
    (h : Reservation.refund r b = some (r', b')) :
    r.status = .pending ∧ r' = { r with status := .refunded } ∧
    b' = b.credit r.amount := by
  unfold Reservation.refund at h
  split at h
  · exact absurd h (by simp)
  · next hst =>
    obtain ⟨hr, hb⟩ := Prod.mk.inj (Option.some.inj h)
    exact ⟨not_not.mp (by simpa using hst), hr.symm, hb.symm⟩

theorem PaymentError.reason_eq_unknown (e : PaymentError)
    (h : e.reason = "UNKNOWN") : e = .unknown := by
  cases e <;> first
    | rfl
    | exact absurd h (by decide)

theorem Payment.create_ok_fields (g : SpendGrant) (inv : RawInvoice)
    (pr : Except String ParsedInvoice) (amt : Option MilliSats)
    (l : CashLimits) (d : MilliSats) (fid now : Nat) (p : Payment)
    (h : Payment.create g inv pr amt l d fid now = .ok p) :
    p.status = .new ∧ p.fee = none ∧ p.reservation_id = none ∧
    p.user_id = g.user_id ∧ p.token_id = g.token_id := by
  unfold Payment.create at h
  split at h
  · exact absurd h (by simp)
  · split at h
    · exact absurd h (by simp)
    · split at h
      · exact absurd h (by simp)
      · have hp := Except.ok.inj h
        subst hp
        exact ⟨rfl, rfl, rfl, rfl, rfl⟩

theorem Payment.prepare_ok_fields (p : Payment) (b : Balance)
    (probe : Except PaymentError MilliSats) (rid now : Nat)
    (p' : Payment) (b' : Balance) (r : Reservation)
    (h : Payment.prepare p b probe rid now = some (p', b', .ok r)) :
    p'.status = .ready ∧ r.status = .pending := by
  unfold Payment.prepare at h
  split at h
  · exact absurd h (by simp)
  · split at h
    · exact absurd h (by simp)
    · split at h
      · next fee =>
        split at h
        · next b'' res hres =>
          obtain ⟨hp, hrest⟩ := Prod.mk.inj (Option.some.inj h)
          obtain ⟨hb, hr⟩ := Prod.mk.inj hrest
          have hfields := Balance.reserve_eq_ok _ _ _ _ _ _ hres
          cases Except.ok.inj hr
          refine ⟨by rw [← hp], ?_⟩
          rw [hfields.2.2]
        · exact absurd (congrArg (fun x => x.2.2) (Option.some.inj h)) (by simp)
      · exact absurd (congrArg (fun x => x.2.2) (Option.some.inj h)) (by simp)

theorem Payment.prepare_err_status (p : Payment) (b : Balance)
    (probe : Except PaymentError MilliSats) (rid now : Nat)
    (p' : Payment) (b' : Balance) (e : Payment.Error)
    (h : Payment.prepare p b probe rid now = some (p', b', .error e)) :
    p'.status = .new ∨ ∃ re ts, p'.status = .failed re ts := by
  unfold Payment.prepare at h
  split at h
  · exact absurd h (by simp)
  · next hnew =>
    have hpnew : p.status = .new := not_not.mp (by simpa using hnew)
    split at h
    · exact absurd h (by simp)
    · split at h
      · split at h
        · exact absurd (congrArg (fun x => x.2.2) (Option.some.inj h)) (by simp)
        · obtain ⟨hp, -⟩ := Prod.mk.inj (Option.some.inj h)
          exact Or.inl (by rw [← hp, hpnew])
      · obtain ⟨hp, -⟩ := Prod.mk.inj (Option.some.inj h)
        exact Or.inr ⟨_, now, by rw [← hp]; rfl⟩

theorem Payment.send_cases (p : Payment) (b : Balance) (r : Reservation)
    (pr : Except String ParsedInvoice) (payres : Except PaymentError Unit)
    (now : Nat) (p' : Payment) (b' : Balance) (r' : Reservation)
    (out : Except Payment.Error Unit)
    (h : Payment.send p b r pr payres now = some (p', b', r', out)) :
    (∃ ts, p'.status = .succeeded ts ∧ r'.status = .debited) ∨
    (p' = p ∧ p.status = .ready ∧ r' = r ∧ r.status = .pending) ∨
    (∃ e : PaymentError, e ≠ .unknown ∧ p'.status = .failed e.reason now ∧
      r'.status = .refunded) := by
  unfold Payment.send at h
  split at h
  · exact absurd h (by simp)
  · next =>
    split at h
    · exact absurd h (by simp)
    · next hready =>
      have hpready : p.status = .ready := not_not.mp (by simpa using hready)
      split at h
      · exact absurd h (by simp)
      · next hpend =>
        have hrpend : r.status = .pending := not_not.mp (by simpa using hpend)
        split at h
        · exact absurd h (by simp)
        · next =>
          split at h
          · exact absurd h (by simp)
          · split at h
            · exact absurd h (by simp)
            · split at h
              · split at h
                · exact absurd h (by simp)
                · next r'' hdeb =>
                  obtain ⟨hp, hrest⟩ := Prod.mk.inj (Option.some.inj h)
                  obtain ⟨-, hrest2⟩ := Prod.mk.inj hrest
                  obtain ⟨hr, -⟩ := Prod.mk.inj hrest2
                  refine Or.inl ⟨now, by rw [← hp], ?_⟩
                  rw [← hr, (Reservation.debit_eq_some _ _ hdeb).2]
              · obtain ⟨hp, hrest⟩ := Prod.mk.inj (Option.some.inj h)
                obtain ⟨-, hrest2⟩ := Prod.mk.inj hrest
                obtain ⟨hr, -⟩ := Prod.mk.inj hrest2
                exact Or.inr (Or.inl ⟨hp.symm, hpready, hr.symm, hrpend⟩)
              · next e hne =>
                split at h
                · exact absurd h (by simp)
                · next rb' href =>
                  obtain ⟨hp, hrest⟩ := Prod.mk.inj (Option.some.inj h)
                  obtain ⟨-, hrest2⟩ := Prod.mk.inj hrest
                  obtain ⟨hr, -⟩ := Prod.mk.inj hrest2
                  refine Or.inr (Or.inr ⟨e, ?_, by rw [← hp]; rfl, ?_⟩)
                  · exact fun hc => hne hc
                  · have := Reservation.refund_eq_some _ _ _ _ href
                    rw [← hr, this.2.1]

/-- C3 — After any sequence of `Payment::create`, `Payment::prepare` and
`Payment::send` operations: a Succeeded payment's reservation is Debited; a
Failed payment with a reason other than UNKNOWN that has a reservation has it
Refunded; a payment Failed with reason UNKNOWN has its reservation (if any)
still Pending. -/
theorem payment_reservation_status_invariant
    (p : Payment) (b : Balance) (res : Option Reservation)
    (h : PaymentReach p b res) :
    (∀ ts, p.status = .succeeded ts → ∃ r, res = some r ∧ r.status = .debited) ∧
    (∀ reason ts r, p.status = .failed reason ts → reason ≠ "UNKNOWN" →
      res = some r → r.status = .refunded) ∧
    (∀ ts r, p.status = .failed "UNKNOWN" ts → res = some r →
      r.status = .pending) := by
  induction h with
  | created g inv pr amt l d fid now p b hc =>
    obtain ⟨hst, -, -, -, -⟩ := Payment.create_ok_fields g inv pr amt l d fid now p hc
    refine ⟨?_, ?_, ?_⟩ <;> intro _ <;> simp_all
  | prepared p b probe rid now p' b' r h hprep ih =>
    obtain ⟨hst, -⟩ := Payment.prepare_ok_fields p b probe rid now p' b' r hprep
    refine ⟨?_, ?_, ?_⟩ <;> intro _ <;> simp_all
  | prepare_failed p b probe rid now p' b' e h hprep ih =>
    rcases Payment.prepare_err_status p b probe rid now p' b' e hprep with
      hst | ⟨re, ts, hst⟩ <;>
      refine ⟨?_, ?_, ?_⟩ <;> intro _ <;> simp_all
  | sent p b r pr payres now p' b' r' out h hsend ih =>
    rcases Payment.send_cases p b r pr payres now p' b' r' out hsend with
      ⟨ts, hst, hrd⟩ | ⟨hp, hready, hr, hrp⟩ | ⟨e, hne, hst, hrf⟩
    · refine ⟨fun ts' h1 => ⟨r', rfl, hrd⟩, ?_, ?_⟩ <;> intro _ <;> simp_all
    · subst hp hr
      refine ⟨?_, ?_, ?_⟩ <;> intro _ <;> simp_all
    · refine ⟨?_, ?_, ?_⟩
      · intro ts' h1
        rw [hst] at h1
        exact absurd h1 (by simp)
      · intro reason ts r0 hf hne' hsome
        cases Option.some.inj hsome
        exact hrf
      · intro ts r0 hf hsome
        rw [hst] at hf
        obtain ⟨hre, -⟩ := PaymentStatus.failed.inj hf
        exact absurd (PaymentError.reason_eq_unknown e hre) hne

/-- Witness: a concrete freshly created payment (status New, no reservation)
satisfies the C3 invariant. -/
theorem payment_reservation_status_invariant_witness :
    (∀ ts, (⟨3, 1, 2, 5, "inv", none, none, 4, .new⟩ : Payment).status = .succeeded ts →
      ∃ r, (none : Option Reservation) = some r ∧ r.status = .debited) ∧
    (∀ reason ts r,
      (⟨3, 1, 2, 5, "inv", none, none, 4, .new⟩ : Payment).status = .failed reason ts →
      reason ≠ "UNKNOWN" → (none : Option Reservation) = some r →
      r.status = .refunded) ∧
    (∀ ts r,
      (⟨3, 1, 2, 5, "inv", none, none, 4, .new⟩ : Payment).status = .failed "UNKNOWN" ts →
      (none : Option Reservation) = some r → r.status = .pending) :=
  payment_reservation_status_invariant _ (Balance.new 2 50) none
    (.created ⟨1, 2⟩ "inv" (.ok ⟨none⟩) (some 5) ⟨0, 100, 1000⟩ 0 3 4 _ _ rfl)

/-- C4 counterexample: for a concrete Ready payment with a Pending
reservation, when the node reports `Unknown` during send, the reservation
stays Pending and the error is surfaced, but the payment is NOT Failed — it
is returned unchanged, still in Ready status (`Payment::send` does not call
`fail` in the `Unknown` arm). -/
theorem send_unknown_counterexample :
    Payment.send ⟨0, 1, 2, 5, "inv", some 1, some 7, 0, .ready⟩ ⟨2, 10, 4⟩
        ⟨7, 2, 6, .pending, 0⟩ (.ok ⟨none⟩) (.error .unknown) 9 =
      some (⟨0, 1, 2, 5, "inv", some 1, some 7, 0, .ready⟩, ⟨2, 10, 4⟩,
            ⟨7, 2, 6, .pending, 0⟩, .error (.paymentError .unknown)) ∧
    (⟨0, 1, 2, 5, "inv", some 1, some 7, 0, .ready⟩ : Payment).status = .ready ∧
    ∀ reason ts,
      (⟨0, 1, 2, 5, "inv", some 1, some 7, 0, .ready⟩ : Payment).status ≠
        .failed reason ts :=
  ⟨rfl, rfl, fun _ _ h => nomatch h⟩

/-- C4 (amended) — For every Ready payment with a Pending matching
reservation and a probed fee, when `node.pay_invoice` returns `Unknown`
during send: the reservation is left Pending (refund is not called, so the
balance stays decremented by amount plus fee), the `Unknown` error is
surfaced to the caller, and the payment is left unchanged in Ready status
(it is not marked Failed). -/
theorem send_unknown_leaves_state_unchanged (p : Payment) (b : Balance)
    (r : Reservation) (parsed : ParsedInvoice) (now : Nat) (f : MilliSats)
    (h1 : p.user_id = b.user_id) (h2 : p.status = .ready)
    (h3 : r.status = .pending) (h4 : p.reservation_id = some r.id)
    (h5 : p.fee = some f) :
    Payment.send p b r (.ok parsed) (.error .unknown) now =
      some (p, b, r, .error (.paymentError .unknown)) := by
  unfold Payment.send
  rw [if_neg (by simp [h1]), if_neg (by simp [h2]), if_neg (by simp [h3]),
      if_neg (by simp [h4]), h5]

theorem send_unknown_leaves_state_unchanged_witness :
    Payment.send ⟨10, 1, 2, 5, "inv", some 1, some 7, 0, .ready⟩ ⟨2, 10, 4⟩
        ⟨7, 2, 6, .pending, 0⟩ (.ok ⟨some 5⟩) (.error .unknown) 9 =
      some (⟨10, 1, 2, 5, "inv", some 1, some 7, 0, .ready⟩, ⟨2, 10, 4⟩,
            ⟨7, 2, 6, .pending, 0⟩, .error (.paymentError .unknown)) :=
  send_unknown_leaves_state_unchanged _ _ _ _ 9 1 rfl rfl rfl rfl rfl

/-- C7 — `Payment::create` returns `AmountSpecifiedTwice` when the parsed
invoice carries an amount and an explicit amount is also given,
`AmountNotSpecified` when neither is given; otherwise it uses the one present
amount, checks it against the cash limits together with the daily total, and
on success yields a New payment with no fee and no reservation. -/
theorem payment_create_amount_selection (g : SpendGrant) (inv : RawInvoice)
    (parsed : ParsedInvoice) (amount : Option MilliSats) (limits : CashLimits)
    (daily_total : MilliSats) (fid now : Nat) :
    (∀ a a', parsed.amount_milli_satoshis = some a → amount = some a' →
      Payment.create g inv (.ok parsed) amount limits daily_total fid now =
        .error .amountSpecifiedTwice) ∧
    (parsed.amount_milli_satoshis = none → amount = none →
      Payment.create g inv (.ok parsed) amount limits daily_total fid now =
        .error .amountNotSpecified) ∧
    (∀ a, parsed.amount_milli_satoshis = some a → amount = none →
      (∀ e, limits.check ⟨(a : MilliSats), daily_total⟩ = .error e →
        Payment.create g inv (.ok parsed) amount limits daily_total fid now =
          .error (.limitsViolated e)) ∧
      (limits.check ⟨(a : MilliSats), daily_total⟩ = .ok () →
        Payment.create g inv (.ok parsed) amount limits daily_total fid now =
          .ok ⟨fid, g.token_id, g.user_id, (a : MilliSats), inv, none, none, now, .new⟩)) ∧
    (∀ a, parsed.amount_milli_satoshis = none → amount = some a →
      (∀ e, limits.check ⟨a, daily_total⟩ = .error e →
        Payment.create g inv (.ok parsed) amount limits daily_total fid now =
          .error (.limitsViolated e)) ∧
      (limits.check ⟨a, daily_total⟩ = .ok () →
        Payment.create g inv (.ok parsed) amount limits daily_total fid now =
          .ok ⟨fid, g.token_id, g.user_id, a, inv, none, none, now, .new⟩)) := by
  refine ⟨?_, ?_, ?_, ?_⟩
  · intro a a' ha hamt
    simp [Payment.create, ha, hamt]
  · intro ha hamt
    simp [Payment.create, ha, hamt]
  · intro a ha hamt
    refine ⟨fun e hchk => ?_, fun hchk => ?_⟩ <;>
      simp [Payment.create, ha, hamt, hchk]
  · intro a ha hamt
    refine ⟨fun e hchk => ?_, fun hchk => ?_⟩ <;>
      simp [Payment.create, ha, hamt, hchk]

theorem payment_create_amount_selection_witness :
    Payment.create ⟨1, 2⟩ "inv" (.ok ⟨some 5⟩) (some 3) ⟨0, 100, 1000⟩ 0 3 4 =
      .error .amountSpecifiedTwice ∧
    Payment.create ⟨1, 2⟩ "inv" (.ok ⟨none⟩) none ⟨0, 100, 1000⟩ 0 3 4 =
      .error .amountNotSpecified ∧
    Payment.create ⟨1, 2⟩ "inv" (.ok ⟨some 5⟩) none ⟨0, 100, 1000⟩ 0 3 4 =
      .ok ⟨3, 1, 2, ((5 : Nat) : MilliSats), "inv", none, none, 4, .new⟩ ∧
    Payment.create ⟨1, 2⟩ "inv" (.ok ⟨none⟩) (some 200) ⟨0, 100, 1000⟩ 0 3 4 =
      .error (.limitsViolated .amountTooHigh) :=
  ⟨(payment_create_amount_selection ⟨1, 2⟩ "inv" ⟨some 5⟩ (some 3)
      ⟨0, 100, 1000⟩ 0 3 4).1 5 3 rfl rfl,
   (payment_create_amount_selection ⟨1, 2⟩ "inv" ⟨none⟩ none
      ⟨0, 100, 1000⟩ 0 3 4).2.1 rfl rfl,
   ((payment_create_amount_selection ⟨1, 2⟩ "inv" ⟨some 5⟩ none
      ⟨0, 100, 1000⟩ 0 3 4).2.2.1 5 rfl rfl).2 rfl,
   ((payment_create_amount_selection ⟨1, 2⟩ "inv" ⟨none⟩ (some 200)
      ⟨0, 100, 1000⟩ 0 3 4).2.2.2 200 rfl rfl).1 .amountTooHigh rfl⟩

/-- C10 — `Balance::reserve` places no lower bound on its argument: it
succeeds for every `m ≤ b.amount` including negative `m`, in which case the
balance amount increases by `-m` and a Pending reservation with negative
amount is created; protection against nonpositive debits exists only in
callers such as `Withdrawal::start`, which rejects `amount ≤ 0` with
`AmountNotPositive` before reserving. -/
theorem reserve_no_lower_bound (b : Balance) (m : MilliSats) (fid now : Nat)
    (g : SpendGrant) (address : String) (amount fee : Sats) (wid rid wnow : Nat) :
    (m ≤ b.amount → ∃ b' r, Balance.reserve b m fid now = (b', .ok r)) ∧
    (m < 0 → m ≤ b.amount → ∀ b' r, Balance.reserve b m fid now = (b', .ok r) →
      b'.amount = b.amount + (-m) ∧ b.amount < b'.amount ∧ r.amount = m ∧
      r.amount < 0 ∧ r.status = .pending) ∧
    (g.user_id = b.user_id → amount ≤ 0 →
      Withdrawal.start g b address amount fee wid rid wnow =
        some (b, .error .amountNotPositive)) := by
  refine ⟨?_, ?_, ?_⟩
  · intro hm
    exact ⟨_, _, Balance.reserve_of_le b m fid now hm⟩
  · intro hneg hm b' r h
    obtain ⟨-, hb, hr⟩ := Balance.reserve_eq_ok b m fid now b' r h
    subst hb hr
    refine ⟨by simp; ring, by simp; linarith, rfl, hneg, rfl⟩
  · intro hg hamt
    unfold Withdrawal.start
    rw [if_neg (by simp [hg]), if_pos hamt]

theorem reserve_no_lower_bound_witness :
    (∃ b' r, Balance.reserve (Balance.new 0 3) (-5) 1 0 = (b', .ok r)) ∧
    (∀ b' r, Balance.reserve (Balance.new 0 3) (-5) 1 0 = (b', .ok r) →
      b'.amount = (Balance.new 0 3).amount + (-(-5)) ∧
      (Balance.new 0 3).amount < b'.amount ∧ r.amount = -5 ∧
      r.amount < 0 ∧ r.status = .pending) ∧
    Withdrawal.start ⟨9, 0⟩ (Balance.new 0 3) "addr" 0 2 5 6 7 =
      some (Balance.new 0 3, .error .amountNotPositive) :=
  ⟨(reserve_no_lower_bound (Balance.new 0 3) (-5) 1 0 ⟨9, 0⟩ "addr" 0 2 5 6 7).1
      (by decide),
   (reserve_no_lower_bound (Balance.new 0 3) (-5) 1 0 ⟨9, 0⟩ "addr" 0 2 5 6 7).2.1
      (by decide) (by decide),
   (reserve_no_lower_bound (Balance.new 0 3) (-5) 1 0 ⟨9, 0⟩ "addr" 0 2 5 6 7).2.2
      rfl (by decide)⟩

/-- `is_conflict` satisfies the defining equation of the source function:
the chain contains a conflict iff the head is a `ConflictError` or the
source chain contains one. -/
theorem is_conflict_eq (o : Option SrcError) :
    is_conflict o = o.elim false (fun e => e.is_conflict_error || is_conflict e.source) := by
  cases o with
  | none => rfl
  | some e =>
    cases e <;>
      simp [is_conflict, isConflictChain, SrcError.is_conflict_error, SrcError.source]

theorem retryAux_calls_le {T : Type} (cb : Nat → Except SrcError T)
    (left : Nat) : ∀ i, (retryAux cb i left).2.1 ≤ i + left := by
  induction left with
  | zero => intro i; simp [retryAux]
  | succ n ih =>
    intro i
    unfold retryAux
    cases hcb : cb i with
    | ok t => simp
    | error e =>
      by_cases hc : is_conflict (some e) = true
      · have hrec := ih (i + 1)
        simp only [hc, if_true]
        omega
      · simp [hc]

theorem retryAux_all_conflict {T : Type} (cb : Nat → Except SrcError T)
    (left : Nat) :
    ∀ i, (∀ j, i ≤ j → j < i + left → isConflictResult (cb j) = true) →
    retryAux cb i left = (cb (i + left), i + left, List.range' i left) := by
  induction left with
  | zero => intro i h; simp [retryAux, List.range']
  | succ n ih =>
    intro i h
    have hi : isConflictResult (cb i) = true := h i le_rfl (by omega)
    unfold retryAux
    cases hcb : cb i with
    | ok t => rw [hcb] at hi; exact absurd hi (by simp [isConflictResult])
    | error e =>
      rw [hcb] at hi
      simp only [isConflictResult] at hi
      have harith : i + 1 + n = i + (n + 1) := by omega
      rw [ih (i + 1) (fun j h1 h2 => h j (by omega) (by omega))] at *
      simp [hi, harith, List.range'_succ]

theorem retryAux_stop {T : Type} (cb : Nat → Except SrcError T)
    (m : Nat) :
    ∀ left i, (∀ j, i ≤ j → j < i + m → isConflictResult (cb j) = true) →
    isConflictResult (cb (i + m)) = false → m ≤ left →
    retryAux cb i left = (cb (i + m), i + m, List.range' i m) := by
  induction m with
  | zero =>
    intro left i hconf hstop hm
    cases left with
    | zero => simp [retryAux, List.range']
    | succ l =>
      unfold retryAux
      simp only [Nat.add_zero] at hstop
      cases hcb : cb i with
      | ok t => simp [hcb, List.range']
      | error e =>
        rw [hcb] at hstop
        simp only [isConflictResult] at hstop
        simp [hstop, hcb, List.range']
  | succ n ih =>
    intro left i hconf hstop hm
    cases left with
    | zero => omega
    | succ l =>
      have hi : isConflictResult (cb i) = true := hconf i le_rfl (by omega)
      unfold retryAux
      cases hcb : cb i with
      | ok t => rw [hcb] at hi; exact absurd hi (by simp [isConflictResult])
      | error e =>
        rw [hcb] at hi
        simp only [isConflictResult] at hi
        have harith : i + 1 + n = i + (n + 1) := by omega
        rw [ih l (i + 1) (fun j h1 h2 => hconf j (by omega) (by omega))
            (by rw [harith]; exact hstop) (by omega)] at *
        simp [hi, harith, List.range'_succ]

/-- C6 — `retry_loop(f)` invokes `f` at most 10 times in total. When every
failure is a conflict (error chain contains `ConflictError`), it sleeps `i`
seconds after the i-th such failure before calling `f` afresh: a non-conflict
outcome at attempt `k ≤ 9` (success, or an error whose chain lacks
`ConflictError`, which is returned immediately) stops the loop after exactly
`k` invocations with sleeps `1..k-1`; if the first 9 attempts all fail with
conflicts, the result of the 10th invocation is propagated as-is (success,
conflict or other error) after sleeps `1..9`. -/
theorem retry_loop_spec {T : Type} (cb : Nat → Except SrcError T) (k : Nat) :
    (retry_loop cb).2.1 ≤ 10 ∧
    ((∀ j, 1 ≤ j → j ≤ 9 → isConflictResult (cb j) = true) →
      retry_loop cb = (cb 10, 10, [1, 2, 3, 4, 5, 6, 7, 8, 9])) ∧
    (1 ≤ k → k ≤ 9 →
      (∀ j, 1 ≤ j → j < k → isConflictResult (cb j) = true) →
      isConflictResult (cb k) = false →
      retry_loop cb = (cb k, k, List.range' 1 (k - 1))) := by
  have hmr : MAX_RETRIES - 1 = 9 := rfl
  refine ⟨?_, ?_, ?_⟩
  · have h := retryAux_calls_le cb 9 1
    simpa [retry_loop, hmr] using h
  · intro h
    have hall := retryAux_all_conflict cb 9 1 (fun j h1 h2 => h j h1 (by omega))
    have hr : List.range' 1 9 = [1, 2, 3, 4, 5, 6, 7, 8, 9] := by decide
    rw [hr] at hall
    simpa [retry_loop, hmr] using hall
  · intro h1 h9 hconf hstop
    have hm : 1 + (k - 1) = k := by omega
    have hs := retryAux_stop cb (k - 1) 9 1
      (fun j hj1 hj2 => hconf j hj1 (by omega))
      (by rw [hm]; exact hstop) (by omega)
    rw [hm] at hs
    simpa [retry_loop, hmr] using hs

/-- Witness: a callback that conflicts on attempts 1 and 2 and succeeds on
attempt 3 makes `retry_loop` return the third outcome after 3 invocations,
sleeping 1 then 2 seconds. -/
theorem retry_loop_spec_witness :
    (retry_loop retryCbExample).2.1 ≤ 10 ∧
    retry_loop retryCbExample = (retryCbExample 3, 3, List.range' 1 2) :=
  ⟨(retry_loop_spec retryCbExample 3).1,
   (retry_loop_spec retryCbExample 3).2.2 (by decide) (by decide)
     (fun j hj1 hj2 => by interval_cases j <;> decide) (by decide)⟩

/-- C5 — The deposit listener credits the user's balance by
`tx_out.amount.msats()` exactly once over a deposit's history: processing a
confirmed output whose deposit (already recorded, or freshly started from a
known deposit address) is unconfirmed confirms the deposit and credits the
balance; re-processing the same confirmed output once the deposit is
confirmed is a no-op on both the deposit and the balance; and calling
`Deposit::confirm` on an already-confirmed deposit is fatal (panics). -/
theorem deposit_confirm_exactly_once
    (existing : Option Deposit) (addr : Option DepositAddress) (tx_out : TxOut)
    (b : Balance) (d : Deposit) (fid now : Nat) :
    (depositGetOrStart existing addr tx_out fid now = some d →
      d.is_confirmed = false → tx_out.tx.is_confirmed = true →
      tx_out.tx.id = d.tx_out.tx.id → d.user_id = b.user_id →
      Listener.process existing addr tx_out b fid now =
        some (some { d with tx_out := tx_out, confirmed := some now },
              b.credit (Sats.msats tx_out.amount))) ∧
    (existing = some d → d.is_confirmed = true →
      Listener.process existing addr tx_out b fid now = some (some d, b)) ∧
    (d.is_confirmed = true → Deposit.confirm d tx_out b now = none) := by
  refine ⟨?_, ?_, ?_⟩
  · intro hget hdc htc hid huser
    simp only [Listener.process, hget]
    rw [if_pos (by simp [htc, hdc])]
    unfold Deposit.confirm
    rw [if_neg (by simp [hdc]), if_neg (by simp [hid]), if_neg (by simp [huser])]
    simp
  · intro hex hdc
    unfold Listener.process depositGetOrStart
    rw [hex]
    simp [hdc]
  · intro hdc
    unfold Deposit.confirm
    rw [if_pos (by simp [hdc])]

theorem deposit_confirm_exactly_once_witness :
    Listener.process (some ⟨1, 2, ⟨⟨5, none⟩, "addr", 0, 7⟩, 0, none⟩) none
        ⟨⟨5, some 100⟩, "addr", 0, 7⟩ (Balance.new 2 1000) 9 50 =
      some (some ⟨1, 2, ⟨⟨5, some 100⟩, "addr", 0, 7⟩, 0, some 50⟩,
            (Balance.new 2 1000).credit (Sats.msats 7)) ∧
    Listener.process (some ⟨1, 2, ⟨⟨5, some 100⟩, "addr", 0, 7⟩, 0, some 50⟩) none
        ⟨⟨5, some 100⟩, "addr", 0, 7⟩ (Balance.new 2 1000) 9 60 =
      some (some ⟨1, 2, ⟨⟨5, some 100⟩, "addr", 0, 7⟩, 0, some 50⟩,
            Balance.new 2 1000) ∧
    Deposit.confirm ⟨1, 2, ⟨⟨5, some 100⟩, "addr", 0, 7⟩, 0, some 50⟩
        ⟨⟨5, some 100⟩, "addr", 0, 7⟩ (Balance.new 2 1000) 60 = none :=
  ⟨(deposit_confirm_exactly_once (some ⟨1, 2, ⟨⟨5, none⟩, "addr", 0, 7⟩, 0, none⟩)
      none ⟨⟨5, some 100⟩, "addr", 0, 7⟩ (Balance.new 2 1000)
      ⟨1, 2, ⟨⟨5, none⟩, "addr", 0, 7⟩, 0, none⟩ 9 50).1 rfl rfl rfl rfl rfl,
   (deposit_confirm_exactly_once (some ⟨1, 2, ⟨⟨5, some 100⟩, "addr", 0, 7⟩, 0, some 50⟩)
      none ⟨⟨5, some 100⟩, "addr", 0, 7⟩ (Balance.new 2 1000)
      ⟨1, 2, ⟨⟨5, some 100⟩, "addr", 0, 7⟩, 0, some 50⟩ 9 60).2.1 rfl rfl,
   (deposit_confirm_exactly_once (some ⟨1, 2, ⟨⟨5, some 100⟩, "addr", 0, 7⟩, 0, some 50⟩)
      none ⟨⟨5, some 100⟩, "addr", 0, 7⟩ (Balance.new 2 1000)
      ⟨1, 2, ⟨⟨5, some 100⟩, "addr", 0, 7⟩, 0, some 50⟩ 9 60).2.2 rfl⟩

/-- C9 — When an unsettled invoice is settled, the user's balance is credited
by the amount reported in the node's settled-invoice update, not by the
invoice's requested amount, and the node-reported amount is what is recorded
in the invoice's settlement; when the node reports an amount different from
the requested one, the credit follows the node's report. -/
theorem invoice_settle_credits_node_amount (inv : Invoice) (b : Balance)
    (si : SettledInvoice) (now : Nat)
    (h1 : inv.is_settled = false) (h2 : inv.user_id = b.user_id)
    (h3 : si.raw = inv.raw) :
    Invoice.settle inv b si now =
      some ({ inv with settlement := some { amount := si.amount, timestamp := now,
                                            settle_index := si.settle_index } },
            b.credit si.amount) ∧
    (∀ inv' b', Invoice.settle inv b si now = some (inv', b') →
      b'.amount = b.amount + si.amount ∧
      inv'.settlement = some { amount := si.amount, timestamp := now,
                               settle_index := si.settle_index } ∧
      (si.amount ≠ inv.amount → b'.amount ≠ b.amount + inv.amount)) := by
  have hc : Invoice.settle inv b si now =
      some ({ inv with settlement := some { amount := si.amount, timestamp := now,
                                            settle_index := si.settle_index } },
            b.credit si.amount) := by
    unfold Invoice.settle
    rw [if_neg (by simp [h1]), if_neg (by simp [h2]), if_neg (by simp [h3])]
  refine ⟨hc, ?_⟩
  intro inv' b' h
  rw [hc] at h
  obtain ⟨hi, hb⟩ := Prod.mk.inj (Option.some.inj h)
  subst hi hb
  refine ⟨rfl, rfl, ?_⟩
  intro hne
  simpa [Balance.credit] using hne

theorem invoice_settle_credits_node_amount_witness :
    Invoice.settle ⟨1, 2, 3, 500, none, "rawinv", 0, none, 3600⟩ (Balance.new 2 10)
        ⟨444, 6, "rawinv"⟩ 7 =
      some (⟨1, 2, 3, 500, none, "rawinv", 0,
             some { amount := 444, timestamp := 7, settle_index := 6 }, 3600⟩,
            (Balance.new 2 10).credit 444) ∧
    (∀ inv' b',
      Invoice.settle ⟨1, 2, 3, 500, none, "rawinv", 0, none, 3600⟩ (Balance.new 2 10)
          ⟨444, 6, "rawinv"⟩ 7 = some (inv', b') →
      b'.amount = (Balance.new 2 10).amount + 444 ∧
      inv'.settlement = some { amount := 444, timestamp := 7, settle_index := 6 } ∧
      ((444 : MilliSats) ≠ 500 →
        b'.amount ≠ (Balance.new 2 10).amount + 500)) :=
  invoice_settle_credits_node_amount ⟨1, 2, 3, 500, none, "rawinv", 0, none, 3600⟩
    (Balance.new 2 10) ⟨444, 6, "rawinv"⟩ 7 rfl rfl rfl

theorem memoExceedsMax_iff (memo : Option String) :
    memoExceedsMax memo = true ↔ ∃ m, memo = some m ∧ 639 < m.utf8ByteSize := by
  cases memo with
  | none => simp [memoExceedsMax]
  | some m => simp [memoExceedsMax, MAX_MEMO_BYTES]

/-- C8 — `Invoice::create` validates before calling the node and returns an
error (creating no invoice) exactly when a rule is violated:
`AmountNotPositive` iff `amount ≤ 0`; given a positive amount, `InvalidMemo`
iff the memo's byte length exceeds 639; given an acceptable memo,
`InvalidExpiry` iff `expiry ≤ 0` or `expiry > 31536000` seconds; given an
acceptable expiry, a `LimitsViolated` error iff the cash-limits check fails
for `(amount, daily_total)`; and an invoice is created iff every rule
passes. -/
theorem invoice_create_validation (g : ReceiveGrant) (node_invoice : RawInvoice)
    (amount : MilliSats) (memo : Option String) (expiry : Int)
    (limits : CashLimits) (daily_total : MilliSats) (fid now : Nat) :
    (Invoice.create g node_invoice amount memo expiry limits daily_total fid now =
        .error .amountNotPositive ↔ amount ≤ 0) ∧
    (0 < amount →
      ((∃ msg, Invoice.create g node_invoice amount memo expiry limits daily_total
          fid now = .error (.invalidMemo msg)) ↔
        ∃ m, memo = some m ∧ 639 < m.utf8ByteSize)) ∧
    (0 < amount → memoExceedsMax memo = false →
      ((∃ msg, Invoice.create g node_invoice amount memo expiry limits daily_total
          fid now = .error (.invalidExpiry msg)) ↔
        (expiry ≤ 0 ∨ 31536000 < expiry))) ∧
    (0 < amount → memoExceedsMax memo = false → 0 < expiry → expiry ≤ 31536000 →
      ((∃ e, Invoice.create g node_invoice amount memo expiry limits daily_total
          fid now = .error (.limitsViolated e)) ↔
        ∃ e, limits.check ⟨amount, daily_total⟩ = .error e)) ∧
    ((∃ inv, Invoice.create g node_invoice amount memo expiry limits daily_total
        fid now = .ok inv) ↔
      (0 < amount ∧ memoExceedsMax memo = false ∧ 0 < expiry ∧
        expiry ≤ 31536000 ∧ limits.check ⟨amount, daily_total⟩ = .ok ())) := by
  have hME : MAX_EXPIRY_SECONDS = (31536000 : Int) := rfl
  by_cases h1 : amount ≤ 0
  · have hc : Invoice.create g node_invoice amount memo expiry limits daily_total
        fid now = .error .amountNotPositive := by
      unfold Invoice.create
      rw [if_pos h1]
    refine ⟨⟨fun _ => h1, fun _ => hc⟩, fun hpos => absurd h1 (not_le.mpr hpos),
            fun hpos _ => absurd h1 (not_le.mpr hpos),
            fun hpos _ _ _ => absurd h1 (not_le.mpr hpos), ?_⟩
    constructor
    · rintro ⟨inv, hinv⟩
      rw [hc] at hinv
      exact absurd hinv (by simp)
    · rintro ⟨hpos, -⟩
      exact absurd h1 (not_le.mpr hpos)
  · have hpos0 : 0 < amount := not_le.mp h1
    cases hmemo : memoExceedsMax memo with
    | true =>
      have hc : Invoice.create g node_invoice amount memo expiry limits daily_total
          fid now = .error (.invalidMemo "memo can be up to 639 bytes long") := by
        unfold Invoice.create
        rw [if_neg h1, if_pos hmemo]
      refine ⟨?_, ?_, ?_, ?_, ?_⟩
      · constructor
        · intro h; rw [hc] at h; exact absurd h (by simp)
        · intro h; exact absurd h h1
      · intro _
        exact ⟨fun _ => (memoExceedsMax_iff memo).mp hmemo,
               fun _ => ⟨"memo can be up to 639 bytes long", hc⟩⟩
      · intro _ hmf
        exact absurd hmf (by simp)
      · intro _ hmf _ _
        exact absurd hmf (by simp)
      · constructor
        · rintro ⟨inv, hinv⟩; rw [hc] at hinv; exact absurd hinv (by simp)
        · rintro ⟨-, hmf, -⟩; exact absurd hmf (by simp)
    | false =>
      have hnomemo : ∀ m, memo = some m → ¬(639 < m.utf8ByteSize) := by
        intro m hm hlen
        have := (memoExceedsMax_iff memo).mpr ⟨m, hm, hlen⟩
        rw [hmemo] at this
        exact absurd this (by simp)
      by_cases h3 : expiry ≤ 0
      · have hc : Invoice.create g node_invoice amount memo expiry limits daily_total
            fid now = .error (.invalidExpiry "expiry must be positive") := by
          unfold Invoice.create
          rw [if_neg h1, if_neg (by simp [hmemo]), if_pos h3]
        refine ⟨?_, ?_, ?_, ?_, ?_⟩
        · constructor
          · intro h; rw [hc] at h; exact absurd h (by simp)
          · intro h; exact absurd h h1
        · intro _
          constructor
          · rintro ⟨msg, hmsg⟩; rw [hc] at hmsg; exact absurd hmsg (by simp)
          · rintro ⟨m, hm, hlen⟩; exact absurd hlen (hnomemo m hm)
        · intro _ _
          exact ⟨fun _ => Or.inl h3, fun _ => ⟨"expiry must be positive", hc⟩⟩
        · intro _ _ hep _
          exact absurd h3 (by omega)
        · constructor
          · rintro ⟨inv, hinv⟩; rw [hc] at hinv; exact absurd hinv (by simp)
          · rintro ⟨-, -, hep, -⟩; exact absurd h3 (by omega)
      · by_cases h4 : expiry > MAX_EXPIRY_SECONDS
        · have h4' : (31536000 : Int) < expiry := hME ▸ h4
          have hc : Invoice.create g node_invoice amount memo expiry limits daily_total
              fid now =
                .error (.invalidExpiry "expiry can't be more than 31536000 seconds") := by
            unfold Invoice.create
            rw [if_neg h1, if_neg (by simp [hmemo]), if_neg h3, if_pos h4]
          refine ⟨?_, ?_, ?_, ?_, ?_⟩
          · constructor
            · intro h; rw [hc] at h; exact absurd h (by simp)
            · intro h; exact absurd h h1
          · intro _
            constructor
            · rintro ⟨msg, hmsg⟩; rw [hc] at hmsg; exact absurd hmsg (by simp)
            · rintro ⟨m, hm, hlen⟩; exact absurd hlen (hnomemo m hm)
          · intro _ _
            exact ⟨fun _ => Or.inr h4',
                   fun _ => ⟨"expiry can't be more than 31536000 seconds", hc⟩⟩
          · intro _ _ _ hle
            exact absurd h4' (by omega)
          · constructor
            · rintro ⟨inv, hinv⟩; rw [hc] at hinv; exact absurd hinv (by simp)
            · rintro ⟨-, -, -, hle, -⟩; exact absurd h4' (by omega)
        · have h3' : 0 < expiry := by omega
          have h4' : expiry ≤ 31536000 := by
            rw [hME] at h4
            omega
          cases hchk : limits.check ⟨amount, daily_total⟩ with
          | error e =>
            have hc : Invoice.create g node_invoice amount memo expiry limits
                daily_total fid now = .error (.limitsViolated e) := by
              unfold Invoice.create
              rw [if_neg h1, if_neg (by simp [hmemo]), if_neg h3, if_neg h4, hchk]
            refine ⟨?_, ?_, ?_, ?_, ?_⟩
            · constructor
              · intro h; rw [hc] at h; exact absurd h (by simp)
              · intro h; exact absurd h h1
            · intro _
              constructor
              · rintro ⟨msg, hmsg⟩; rw [hc] at hmsg; exact absurd hmsg (by simp)
              · rintro ⟨m, hm, hlen⟩; exact absurd hlen (hnomemo m hm)
            · intro _ _
              constructor
              · rintro ⟨msg, hmsg⟩; rw [hc] at hmsg; exact absurd hmsg (by simp)
              · rintro (hle | hgt)
                · exact absurd hle h3
                · exact absurd hgt (by omega)
            · intro _ _ _ _
              exact ⟨fun _ => ⟨e, rfl⟩, fun _ => ⟨e, hc⟩⟩
            · constructor
              · rintro ⟨inv, hinv⟩; rw [hc] at hinv; exact absurd hinv (by simp)
              · rintro ⟨-, -, -, -, hok⟩; exact absurd hok (by simp)
          | ok u =>
            cases u
            have hc : Invoice.create g node_invoice amount memo expiry limits
                daily_total fid now =
                  .ok ⟨fid, g.user_id, g.token_id, amount, memo, node_invoice, now,
                       none, (now : Int) + expiry⟩ := by
              unfold Invoice.create
              rw [if_neg h1, if_neg (by simp [hmemo]), if_neg h3, if_neg h4, hchk]
            refine ⟨?_, ?_, ?_, ?_, ?_⟩
            · constructor
              · intro h; rw [hc] at h; exact absurd h (by simp)
              · intro h; exact absurd h h1
            · intro _
              constructor
              · rintro ⟨msg, hmsg⟩; rw [hc] at hmsg; exact absurd hmsg (by simp)
              · rintro ⟨m, hm, hlen⟩; exact absurd hlen (hnomemo m hm)
            · intro _ _
              constructor
              · rintro ⟨msg, hmsg⟩; rw [hc] at hmsg; exact absurd hmsg (by simp)
              · rintro (hle | hgt)
                · exact absurd hle h3
                · exact absurd hgt (by omega)
            · intro _ _ _ _
              constructor
              · rintro ⟨e, he⟩; rw [hc] at he; exact absurd he (by simp)
              · rintro ⟨e, he⟩; exact absurd he (by simp)
            · exact ⟨fun _ => ⟨hpos0, rfl, h3', h4', rfl⟩,
                     fun _ => ⟨_, hc⟩⟩

theorem invoice_create_validation_witness :
    (Invoice.create ⟨1, 2⟩ "rawinv" 1 none 1 ⟨0, 100, 1000⟩ 0 3 4 =
        .error .amountNotPositive ↔ (1 : MilliSats) ≤ 0) ∧
    ((∃ msg, Invoice.create ⟨1, 2⟩ "rawinv" 1 none 1 ⟨0, 100, 1000⟩ 0 3 4 =
        .error (.invalidMemo msg)) ↔
      ∃ m, (none : Option String) = some m ∧ 639 < m.utf8ByteSize) ∧
    ((∃ msg, Invoice.create ⟨1, 2⟩ "rawinv" 1 none 1 ⟨0, 100, 1000⟩ 0 3 4 =
        .error (.invalidExpiry msg)) ↔
      ((1 : Int) ≤ 0 ∨ (31536000 : Int) < 1)) ∧
    ((∃ e, Invoice.create ⟨1, 2⟩ "rawinv" 1 none 1 ⟨0, 100, 1000⟩ 0 3 4 =
        .error (.limitsViolated e)) ↔
      ∃ e, CashLimits.check ⟨0, 100, 1000⟩ ⟨1, 0⟩ = .error e) ∧
    ((∃ inv, Invoice.create ⟨1, 2⟩ "rawinv" 1 none 1 ⟨0, 100, 1000⟩ 0 3 4 =
        .ok inv) ↔
      ((0 : MilliSats) < 1 ∧ memoExceedsMax none = false ∧ (0 : Int) < 1 ∧
        (1 : Int) ≤ 31536000 ∧ CashLimits.check ⟨0, 100, 1000⟩ ⟨1, 0⟩ = .ok ())) :=
  ⟨(invoice_create_validation ⟨1, 2⟩ "rawinv" 1 none 1 ⟨0, 100, 1000⟩ 0 3 4).1,
   (invoice_create_validation ⟨1, 2⟩ "rawinv" 1 none 1 ⟨0, 100, 1000⟩ 0 3 4).2.1
     (by decide),
   (invoice_create_validation ⟨1, 2⟩ "rawinv" 1 none 1 ⟨0, 100, 1000⟩ 0 3 4).2.2.1
     (by decide) rfl,
   (invoice_create_validation ⟨1, 2⟩ "rawinv" 1 none 1 ⟨0, 100, 1000⟩ 0 3 4).2.2.2.1
     (by decide) rfl (by decide) (by decide),
   (invoice_create_validation ⟨1, 2⟩ "rawinv" 1 none 1 ⟨0, 100, 1000⟩ 0 3 4).2.2.2.2⟩

end Laas
